import Mathlib

/-!
Verification of the OTP login backend (Express server, `server.js`).

The shallow embedding below translates the in-memory OTP store
(`otpStorage`, a JS `Map`), its operations `storeOTP`, `verifyStoredOTP`,
the periodic expiry sweep, `generateOTP`, the phone-number helpers
`validatePhoneNumber` / `formatPhoneNumber`, and the request handlers'
decision logic (delegated SMS verification versus locally tracked
WhatsApp verification, and the send-rollback paths).

Conventions of the embedding:
* timestamps are `Nat` milliseconds; every `Date.now()` read inside one
  handler invocation is modelled as a single `now : Nat` parameter;
* the JS `Map` is modelled as an insertion-ordered association list with
  unique keys (`keysNodup`), matching `Map` semantics: `get` finds the
  entry, `set` replaces in place or appends, `delete` removes the entry;
* `Math.random()` is modelled as a rational `r` with `0 ≤ r < 1`;
* an `axios` call is modelled by a value describing the provider's reply
  (a resolved response or a thrown error, with or without a response).
-/

namespace Otp

/-- One entry of `otpStorage`: the stored fields `otp`, `createdAt`,
`expiresAt` (see `storeOTP` in the source). -/
structure OtpRecord where
  otp : String
  createdAt : Nat
  expiresAt : Nat
deriving DecidableEq, Repr

/-- The in-memory store `otpStorage` (`new Map()`), as an association list
from phone number to record. -/
abbrev Store := List (String × OtpRecord)

/-- `otpStorage.get(phone)`. -/
def mapGet : Store → String → Option OtpRecord
  | [], _ => none
  | (k, v) :: rest, p => if k = p then some v else mapGet rest p

/-- `otpStorage.set(phone, rec)`: replace the existing entry in place, or
append a new one (JS `Map.set`). -/
def mapSet : Store → String → OtpRecord → Store
  | [], p, v => [(p, v)]
  | (k, w) :: rest, p, v =>
    if k = p then (p, v) :: rest else (k, w) :: mapSet rest p v

/-- `otpStorage.delete(phone)` (JS `Map.delete`; keys are unique, so
removing the first matching entry is removal of the entry). -/
def mapDelete : Store → String → Store
  | [], _ => []
  | (k, w) :: rest, p =>
    if k = p then rest else (k, w) :: mapDelete rest p

/-- The JS `Map` invariant: at most one entry per key. -/
abbrev keysNodup (st : Store) : Prop := (st.map Prod.fst).Nodup

/-- `OTP_EXPIRY_MINUTES = 5`. -/
def OTP_EXPIRY_MINUTES : Nat := 5

/-- The TTL in milliseconds: `OTP_EXPIRY_MINUTES * 60 * 1000`. -/
def otpExpiryMs : Nat := OTP_EXPIRY_MINUTES * 60 * 1000

/-- `storeOTP(phoneNumber, otp)`: sets the record with
`createdAt = Date.now()` and `expiresAt = Date.now() + 5 * 60 * 1000`
(both clock reads modelled by the single parameter `now`). -/
def storeOTP (st : Store) (phoneNumber otp : String) (now : Nat) : Store :=
  mapSet st phoneNumber ⟨otp, now, now + otpExpiryMs⟩

/-- The `{ valid, message }` object returned by `verifyStoredOTP`. -/
structure VerifyResult where
  valid : Bool
  message : String
deriving DecidableEq, Repr

/-- Message of the no-pending-OTP branch of `verifyStoredOTP`. -/
def msgNoOtp : String :=
  "No OTP was sent to this number. Please request OTP first."

/-- Message of the expired branch of `verifyStoredOTP`. -/
def msgExpired : String := "OTP has expired. Please request a new OTP."

/-- Message of the mismatch branch of `verifyStoredOTP`. -/
def msgMismatch : String := "Invalid OTP. Please check and try again."

/-- Message of the success branch of `verifyStoredOTP`. -/
def msgVerified : String := "OTP verified successfully!"

/-- `verifyStoredOTP(phoneNumber, otp)`: look the record up; if absent,
invalid with `msgNoOtp`; else if `Date.now() > stored.expiresAt`, delete
and answer `msgExpired`; else if `stored.otp !== otp`, answer
`msgMismatch` keeping the record; else delete and answer valid.  The
returned pair is (result, store after the call). -/
def verifyStoredOTP (st : Store) (phoneNumber otp : String) (now : Nat) :
    VerifyResult × Store :=
  match mapGet st phoneNumber with
  | none => (⟨false, msgNoOtp⟩, st)
  | some stored =>
    if stored.expiresAt < now then
      (⟨false, msgExpired⟩, mapDelete st phoneNumber)
    else if stored.otp ≠ otp then
      (⟨false, msgMismatch⟩, st)
    else
      (⟨true, msgVerified⟩, mapDelete st phoneNumber)

/-- The `setInterval` cleanup body: delete every entry with
`now > data.expiresAt`. -/
def sweep (st : Store) (now : Nat) : Store :=
  st.filter fun e => ! decide (e.2.expiresAt < now)

/-- The numeric part of `generateOTP`:
`Math.floor(1000 + Math.random() * 9000)`, with `Math.random()` giving
`r` with `0 ≤ r < 1`. -/
def genOTPNat (r : ℚ) : Nat := (⌊(1000 : ℚ) + r * 9000⌋).toNat

/-- `generateOTP()`: the number above rendered with `.toString()`
(decimal representation). -/
def generateOTP (r : ℚ) : String := Nat.repr (genOTPNat r)

/-- A character removed by `replace(/[\s\-\(\)]/g, "")`. -/
def isPhonePunct (c : Char) : Bool :=
  c.isWhitespace || c = '-' || c = '(' || c = ')'

/-- The `cleanNumber` both phone helpers compute. -/
def cleanPhone (s : String) : List Char :=
  s.toList.filter fun c => ! isPhonePunct c

/-- `validatePhoneNumber`: the cleaned number must match `^[6-9]\d{9}$`. -/
def validatePhoneNumber (phoneNumber : String) : Bool :=
  match cleanPhone phoneNumber with
  | c :: rest =>
    decide ('6' ≤ c) && decide (c ≤ '9') &&
      (rest.length == 9) && rest.all Char.isDigit
  | [] => false

/-- `formatPhoneNumber`: clean, then strip a leading `+91`, or a leading
`91` when the cleaned number has more than 10 characters. -/
def formatPhoneNumber (phoneNumber : String) : String :=
  let cs := cleanPhone phoneNumber
  match cs with
  | '+' :: '9' :: '1' :: rest => ⟨rest⟩
  | '9' :: '1' :: rest => if rest.length > 8 then (⟨rest⟩ : String) else ⟨cs⟩
  | _ => ⟨cs⟩

/-- The verify endpoints' OTP format check `^\d{4,6}$`. -/
def otpFormat46 (s : String) : Bool :=
  decide (4 ≤ s.length) && decide (s.length ≤ 6) && s.toList.all Char.isDigit

/-- The Meta verify endpoint's OTP format check `^\d{4}$`. -/
def otpFormat4 (s : String) : Bool :=
  (s.length == 4) && s.toList.all Char.isDigit

/-- `list.isEmpty`, spelled out for the substring search below. -/
def listEmpty : List Char → Bool
  | [] => true
  | _ :: _ => false

/-- Does the second list start with the first one? -/
def leadsList : List Char → List Char → Bool
  | [], _ => true
  | _ :: _, [] => false
  | a :: pa, b :: rest => (a == b) && leadsList pa rest

/-- JS `String.includes` on character lists. -/
def hasSubList : List Char → List Char → Bool
  | [], pat => listEmpty pat
  | l@(_ :: t), pat => leadsList pat l || hasSubList t pat

/-- JS `details.includes(pat)`. -/
def strIncludes (s pat : String) : Bool := hasSubList s.toList pat.toList

/-- The JSON body a verify handler answers with (HTTP status,
`success`, `verified`, `message`). -/
structure HandlerResponse where
  httpStatus : Nat
  success : Bool
  verified : Bool
  message : String
deriving DecidableEq, Repr

/-- Outcome of the common input gate of the three verify handlers. -/
inductive VerifyGate where
  | missing : VerifyGate
  | badOtpFormat : VerifyGate
  | proceed (formattedPhone : String) : VerifyGate
deriving DecidableEq, Repr

/-- The shared input gate of the verify handlers: reject when
`!phoneNumber || !otp` (modelled: an empty string is the only falsy
string), format the phone, reject when the OTP fails the digit regex,
else proceed.  `validatePhoneNumber` is never consulted here. -/
def verifyGateWith (otpOk : String → Bool) (phoneNumber otp : String) :
    VerifyGate :=
  if phoneNumber == "" || otp == "" then .missing
  else if ! otpOk otp then .badOtpFormat
  else .proceed (formatPhoneNumber phoneNumber)

/-- The gate of `POST /api/verify-otp` (OTP regex `^\d{4,6}$`). -/
def smsVerifyGate (phoneNumber otp : String) : VerifyGate :=
  verifyGateWith otpFormat46 phoneNumber otp

/-- The gate of `POST /api/whatsapp/verify-otp` (OTP regex `^\d{4,6}$`). -/
def whatsappVerifyGate (phoneNumber otp : String) : VerifyGate :=
  verifyGateWith otpFormat46 phoneNumber otp

/-- The gate of `POST /api/whatsapp-meta/verify-otp` (OTP regex `^\d{4}$`). -/
def metaVerifyGate (phoneNumber otp : String) : VerifyGate :=
  verifyGateWith otpFormat4 phoneNumber otp

/-- Outcome of the input gate of the send handlers. -/
inductive SendGate where
  | missingPhone : SendGate
  | invalidPhone : SendGate
  | proceedSend (formattedPhone : String) : SendGate
deriving DecidableEq, Repr

/-- The input gate of the send handlers: reject a missing phone, then
reject when `validatePhoneNumber(formatPhoneNumber(phone))` fails. -/
def sendOtpGate (phoneNumber : String) : SendGate :=
  if phoneNumber == "" then .missingPhone
  else if ! validatePhoneNumber (formatPhoneNumber phoneNumber) then
    .invalidPhone
  else .proceedSend (formatPhoneNumber phoneNumber)

/-- What the 2Factor VERIFY3 call in `POST /api/verify-otp` produces:
a resolved response with its `Status` and `Details` fields, an `axios`
error carrying a response (`error.response`, with HTTP status and
`data?.Details || ""`), a request/network error, or any other thrown
error. -/
inductive ProviderReply where
  | okResponse (statusField detailsField : String) : ProviderReply
  | errResponse (httpStatus : Nat) (detailsField : String) : ProviderReply
  | requestError : ProviderReply
  | otherError : ProviderReply
deriving DecidableEq, Repr

/-- The provider-facing part of `POST /api/verify-otp`: the success check
`Status === "Success" && Details === "OTP Matched"`, and the `catch`
block's substring mapping of `error.response.data?.Details`. -/
def smsVerifyCore (reply : ProviderReply) : HandlerResponse :=
  match reply with
  | .okResponse statusField detailsField =>
    if (statusField == "Success") && (detailsField == "OTP Matched") then
      ⟨200, true, true, "OTP verified successfully! Logging you in..."⟩
    else
      ⟨400, false, false, msgMismatch⟩
  | .errResponse httpStatus detailsField =>
    if strIncludes detailsField "OTP Mismatch" ||
        strIncludes detailsField "OTP not matched" then
      ⟨400, false, false, msgMismatch⟩
    else if strIncludes detailsField "OTP Expired" then
      ⟨400, false, false, msgExpired⟩
    else if strIncludes detailsField "No OTP request" then
      ⟨400, false, false, msgNoOtp⟩
    else
      ⟨httpStatus, false, false,
        if detailsField == "" then
          "OTP verification failed. Please try again."
        else detailsField⟩
  | .requestError =>
    ⟨503, false, false,
      "Unable to connect to verification service. Please try again later."⟩
  | .otherError =>
    ⟨500, false, false, "Internal server error. Please try again later."⟩

/-- `POST /api/verify-otp` (delegated authority).  The handler never
reads or writes `otpStorage`; the store is threaded only to make that
fact statable, and is returned unchanged. -/
def smsVerifyHandler (st : Store) (phoneNumber otp : String)
    (reply : ProviderReply) : HandlerResponse × Store :=
  match smsVerifyGate phoneNumber otp with
  | .missing => (⟨400, false, false, "Phone number and OTP are required"⟩, st)
  | .badOtpFormat =>
    (⟨400, false, false, "Invalid OTP format. Please enter a valid OTP."⟩, st)
  | .proceed _ => (smsVerifyCore reply, st)

/-- `POST /api/whatsapp/verify-otp` (local authority): gate, then
`verifyStoredOTP` on the formatted phone; 200 on valid, else 400 with
the verification message.  No provider call is made. -/
def whatsappVerifyHandler (st : Store) (phoneNumber otp : String)
    (now : Nat) : HandlerResponse × Store :=
  match whatsappVerifyGate phoneNumber otp with
  | .missing => (⟨400, false, false, "Phone number and OTP are required"⟩, st)
  | .badOtpFormat =>
    (⟨400, false, false, "Invalid OTP format. Please enter a valid OTP."⟩, st)
  | .proceed fp =>
    let res := verifyStoredOTP st fp otp now
    if res.1.valid then
      (⟨200, true, true, "OTP verified successfully! Logging you in..."⟩,
        res.2)
    else (⟨400, false, false, res.1.message⟩, res.2)

/-- `POST /api/whatsapp-meta/verify-otp` (local authority, 4-digit gate). -/
def metaVerifyHandler (st : Store) (phoneNumber otp : String)
    (now : Nat) : HandlerResponse × Store :=
  match metaVerifyGate phoneNumber otp with
  | .missing => (⟨400, false, false, "Phone number and OTP are required"⟩, st)
  | .badOtpFormat =>
    (⟨400, false, false,
      "Invalid OTP format. Please enter a valid 4-digit OTP."⟩, st)
  | .proceed fp =>
    let res := verifyStoredOTP st fp otp now
    if res.1.valid then
      (⟨200, true, true, "OTP verified successfully! Logging you in..."⟩,
        res.2)
    else (⟨400, false, false, res.1.message⟩, res.2)

/-- Fate of the `axios.post` delivery call in a send handler: it resolves
with a response of shape `ρ`, or throws (`hasResponse` tells whether the
error carries `error.response`). -/
inductive Delivery (ρ : Type) where
  | resolved (r : ρ) : Delivery ρ
  | rejected (hasResponse : Bool) : Delivery ρ
deriving DecidableEq, Repr

/-- What the WhatsApp campaign API response contributes to the success
check `response.data && (response.data.success || response.status === 200)`. -/
structure WaResp where
  dataTruthy : Bool
  dataSuccess : Bool
  httpStatus : Nat
deriving DecidableEq, Repr

/-- `POST /api/whatsapp/send-otp`: gate, generate (the `otp` argument),
optimistically `storeOTP`, deliver; on a non-success response or a thrown
error, `otpStorage.delete(formattedPhone)` (the `catch` recomputes
`formatPhoneNumber(req.body.phoneNumber || "")`, which is the same
formatted phone).  Returns (response was a success, store after). -/
def whatsappSendOtp (st : Store) (phoneNumber otp : String) (now : Nat)
    (d : Delivery WaResp) : Bool × Store :=
  match sendOtpGate phoneNumber with
  | .missingPhone => (false, st)
  | .invalidPhone => (false, st)
  | .proceedSend fp =>
    let st1 := storeOTP st fp otp now
    match d with
    | .resolved r =>
      if r.dataTruthy && (r.dataSuccess || (r.httpStatus == 200)) then
        (true, st1)
      else (false, mapDelete st1 fp)
    | .rejected _ => (false, mapDelete st1 fp)

/-- What the Meta WhatsApp API response contributes to the success checks
`data && data.messages && data.messages[0]?.message_status === "accepted"`
and the fallback `response.status === 200`. -/
structure MetaResp where
  dataTruthy : Bool
  firstMessageAccepted : Bool
  httpStatus : Nat
deriving DecidableEq, Repr

/-- `POST /api/whatsapp-meta/send-otp`: like `whatsappSendOtp`, with the
Meta success checks; on failure the stored record is deleted. -/
def metaSendOtp (st : Store) (phoneNumber otp : String) (now : Nat)
    (d : Delivery MetaResp) : Bool × Store :=
  match sendOtpGate phoneNumber with
  | .missingPhone => (false, st)
  | .invalidPhone => (false, st)
  | .proceedSend fp =>
    let st1 := storeOTP st fp otp now
    match d with
    | .resolved r =>
      if r.dataTruthy && r.firstMessageAccepted then (true, st1)
      else if r.httpStatus == 200 then (true, st1)
      else (false, mapDelete st1 fp)
    | .rejected _ => (false, mapDelete st1 fp)

/-! ### Association-list lemmas (JS `Map` semantics) -/

theorem mapGet_mapSet_self (st : Store) (p : String) (v : OtpRecord) :
    mapGet (mapSet st p v) p = some v := by
  induction st with
  | nil => simp [mapSet, mapGet]
  | cons e rest ih =>
    obtain ⟨k, w⟩ := e
    by_cases h : k = p
    · simp [mapSet, h, mapGet]
    · simp [mapSet, h, mapGet, ih]

theorem mapGet_mapSet_ne (st : Store) (p q : String) (v : OtpRecord)
    (h : q ≠ p) : mapGet (mapSet st p v) q = mapGet st q := by
  induction st with
  | nil => simp [mapSet, mapGet, Ne.symm h]
  | cons e rest ih =>
    obtain ⟨k, w⟩ := e
    by_cases hk : k = p
    · subst hk
      simp [mapSet, mapGet, Ne.symm h]
    · by_cases hq : k = q
      · simp [mapSet, hk, mapGet, hq, h]
      · simp [mapSet, hk, mapGet, hq, ih]

theorem mem_keys_mapSet (st : Store) (p q : String) (v : OtpRecord)
    (h : q ∈ (mapSet st p v).map Prod.fst) :
    q = p ∨ q ∈ st.map Prod.fst := by
  induction st with
  | nil => simpa [mapSet] using h
  | cons e rest ih =>
    obtain ⟨k, w⟩ := e
    by_cases hk : k = p
    · subst hk
      simpa [mapSet] using h
    · simp only [mapSet, if_neg hk, List.map_cons, List.mem_cons] at h
      rcases h with h | h
      · exact Or.inr (by simp [h])
      · rcases ih h with h | h
        · exact Or.inl h
        · exact Or.inr (by simp [h])

theorem keysNodup_mapSet (st : Store) (p : String) (v : OtpRecord)
    (h : keysNodup st) : keysNodup (mapSet st p v) := by
  induction st with
  | nil => simp [mapSet, keysNodup]
  | cons e rest ih =>
    obtain ⟨k, w⟩ := e
    simp only [keysNodup, List.map_cons, List.nodup_cons] at h
    by_cases hk : k = p
    · subst hk
      simpa [mapSet, keysNodup, List.nodup_cons] using h
    · simp only [mapSet, if_neg hk, keysNodup, List.map_cons,
        List.nodup_cons]
      refine ⟨fun hm => ?_, ih h.2⟩
      rcases mem_keys_mapSet rest p k v hm with h1 | h1
      · exact hk h1
      · exact h.1 h1

theorem mapGet_eq_none_of_not_mem_keys (st : Store) (p : String)
    (h : p ∉ st.map Prod.fst) : mapGet st p = none := by
  induction st with
  | nil => rfl
  | cons e rest ih =>
    obtain ⟨k, w⟩ := e
    simp only [List.map_cons, List.mem_cons] at h
    push_neg at h
    simp [mapGet, Ne.symm h.1, ih h.2]

theorem mem_keys_of_mapGet_some (st : Store) (p : String)
    (rec : OtpRecord) (h : mapGet st p = some rec) :
    p ∈ st.map Prod.fst := by
  induction st with
  | nil => simp [mapGet] at h
  | cons e rest ih =>
    obtain ⟨k, w⟩ := e
    by_cases hk : k = p
    · simp [hk]
    · simp only [mapGet, if_neg hk] at h
      simp [ih h]

theorem mapDelete_sublist (st : Store) (p : String) :
    (mapDelete st p).Sublist st := by
  induction st with
  | nil => simp [mapDelete]
  | cons e rest ih =>
    obtain ⟨k, w⟩ := e
    by_cases hk : k = p
    · simpa [mapDelete, hk] using (List.Sublist.refl rest).cons (k, w)
    · simpa [mapDelete, hk] using ih.cons₂ (k, w)

theorem keysNodup_mapDelete (st : Store) (p : String)
    (h : keysNodup st) : keysNodup (mapDelete st p) :=
  List.Nodup.sublist ((mapDelete_sublist st p).map Prod.fst) h

theorem mapGet_mapDelete_self (st : Store) (p : String)
    (h : keysNodup st) : mapGet (mapDelete st p) p = none := by
  induction st with
  | nil => rfl
  | cons e rest ih =>
    obtain ⟨k, w⟩ := e
    simp only [keysNodup, List.map_cons, List.nodup_cons] at h
    by_cases hk : k = p
    · subst hk
      simp only [mapDelete, if_pos rfl]
      exact mapGet_eq_none_of_not_mem_keys rest k h.1
    · simp [mapDelete, hk, mapGet, ih h.2]

theorem mapGet_mapDelete_ne (st : Store) (p q : String) (h : q ≠ p) :
    mapGet (mapDelete st p) q = mapGet st q := by
  induction st with
  | nil => rfl
  | cons e rest ih =>
    obtain ⟨k, w⟩ := e
    by_cases hk : k = p
    · subst hk
      simp [mapDelete, mapGet, Ne.symm h]
    · by_cases hq : k = q
      · simp [mapDelete, hk, mapGet, hq, h]
      · simp [mapDelete, hk, mapGet, hq, ih]

/-! ### Sweep lemmas -/

theorem keysNodup_sweep (st : Store) (now : Nat) (h : keysNodup st) :
    keysNodup (sweep st now) :=
  List.Nodup.sublist ((List.filter_sublist st).map Prod.fst) h

theorem mapGet_sweep_none (st : Store) (p : String) (now : Nat)
    (h : mapGet st p = none) : mapGet (sweep st now) p = none := by
  induction st with
  | nil => rfl
  | cons e rest ih =>
    obtain ⟨k, w⟩ := e
    by_cases hk : k = p
    · simp [mapGet, hk] at h
    · simp only [mapGet, if_neg hk] at h
      by_cases hw : w.expiresAt < now
      · simp [sweep, List.filter_cons, hw] at ih ⊢
        exact ih h
      · simp [sweep, List.filter_cons, hw, mapGet, hk] at ih ⊢
        exact ih h

theorem mapGet_sweep_some (st : Store) (p : String) (rec : OtpRecord)
    (now : Nat) (hnd : keysNodup st) (h : mapGet st p = some rec) :
    mapGet (sweep st now) p =
      if rec.expiresAt < now then none else some rec := by
  induction st with
  | nil => simp [mapGet] at h
  | cons e rest ih =>
    obtain ⟨k, w⟩ := e
    simp only [keysNodup, List.map_cons, List.nodup_cons] at hnd
    by_cases hk : k = p
    · subst hk
      simp [mapGet] at h
      subst h
      by_cases hw : w.expiresAt < now
      · have hstep : sweep ((k, w) :: rest) now = sweep rest now := by
          simp [sweep, List.filter_cons, hw]
        rw [hstep, if_pos hw]
        exact mapGet_sweep_none rest k now
          (mapGet_eq_none_of_not_mem_keys rest k hnd.1)
      · simp [sweep, List.filter_cons, hw, mapGet]
    · simp only [mapGet, if_neg hk] at h
      by_cases hw : w.expiresAt < now
      · have hstep : sweep ((k, w) :: rest) now = sweep rest now := by
          simp [sweep, List.filter_cons, hw]
        rw [hstep]
        exact ih hnd.2 h
      · have hstep : sweep ((k, w) :: rest) now = (k, w) :: sweep rest now := by
          simp [sweep, List.filter_cons, hw]
        rw [hstep]
        simp only [mapGet, if_neg hk]
        exact ih hnd.2 h

theorem sweep_sweep (st : Store) (now : Nat) :
    sweep (sweep st now) now = sweep st now := by
  induction st with
  | nil => rfl
  | cons e rest ih =>
    by_cases hw : e.2.expiresAt < now
    · simpa [sweep, List.filter_cons, hw] using ih
    · simpa [sweep, List.filter_cons, hw] using ih

theorem sweep_mapDelete_of_expired (st : Store) (p : String)
    (rec : OtpRecord) (now : Nat) (h : mapGet st p = some rec)
    (hexp : rec.expiresAt < now) :
    sweep (mapDelete st p) now = sweep st now := by
  induction st with
  | nil => simp [mapGet] at h
  | cons e rest ih =>
    obtain ⟨k, w⟩ := e
    by_cases hk : k = p
    · subst hk
      simp [mapGet] at h
      subst h
      simp [mapDelete, sweep, List.filter_cons, hexp]
    · simp only [mapGet, if_neg hk] at h
      by_cases hw : w.expiresAt < now
      · simpa [mapDelete, hk, sweep, List.filter_cons, hw] using ih h
      · simpa [mapDelete, hk, sweep, List.filter_cons, hw] using ih h

/-! ### verifyStoredOTP shape lemmas -/

theorem verifyStoredOTP_snd_cases (st : Store) (p c : String) (t : Nat) :
    (verifyStoredOTP st p c t).2 = st ∨
      (verifyStoredOTP st p c t).2 = mapDelete st p := by
  cases hg : mapGet st p with
  | none => simp [verifyStoredOTP, hg]
  | some rec =>
    simp only [verifyStoredOTP, hg]
    split_ifs <;> simp

theorem verifyStoredOTP_fst_congr (st st2 : Store) (p c : String) (t : Nat)
    (h : mapGet st p = mapGet st2 p) :
    (verifyStoredOTP st p c t).1 = (verifyStoredOTP st2 p c t).1 := by
  simp only [verifyStoredOTP, h]
  rcases hg : mapGet st2 p with _ | rec
  · simp [hg]
  · simp only [hg]
    split_ifs <;> rfl

theorem mem_mapSet (st : Store) (p : String) (v : OtpRecord)
    (e : String × OtpRecord) (h : e ∈ mapSet st p v) :
    e = (p, v) ∨ e ∈ st := by
  induction st with
  | nil =>
    simp only [mapSet, List.mem_singleton] at h
    exact Or.inl h
  | cons f rest ih =>
    obtain ⟨k, w⟩ := f
    by_cases hk : k = p
    · subst hk
      have hs : mapSet ((k, w) :: rest) k v = (k, v) :: rest := by
        simp [mapSet]
      rw [hs] at h
      rcases List.mem_cons.1 h with h1 | h1
      · exact Or.inl h1
      · exact Or.inr (List.mem_cons_of_mem _ h1)
    · have hs : mapSet ((k, w) :: rest) p v = (k, w) :: mapSet rest p v := by
        simp [mapSet, hk]
      rw [hs] at h
      rcases List.mem_cons.1 h with h1 | h1
      · exact Or.inr (by simp [h1])
      · rcases ih h1 with h2 | h2
        · exact Or.inl h2
        · exact Or.inr (List.mem_cons_of_mem _ h2)

/-- The store states reachable from the empty `otpStorage` by the
operations the source performs on it: `storeOTP`, `verifyStoredOTP`
and the periodic sweep. -/
inductive Reachable : Store → Prop where
  | empty : Reachable []
  | store (st : Store) (p c : String) (t : Nat) :
      Reachable st → Reachable (storeOTP st p c t)
  | verify (st : Store) (p c : String) (t : Nat) :
      Reachable st → Reachable (verifyStoredOTP st p c t).2
  | sweepStep (st : Store) (t : Nat) :
      Reachable st → Reachable (sweep st t)

theorem reachable_inv (st : Store) (h : Reachable st) :
    keysNodup st ∧
      ∀ e ∈ st, e.2.expiresAt = e.2.createdAt + otpExpiryMs := by
  induction h with
  | empty => exact ⟨by simp [keysNodup], by simp⟩
  | store st p c t _ ih =>
    refine ⟨keysNodup_mapSet st p _ ih.1, fun e he => ?_⟩
    rcases mem_mapSet st p _ e he with rfl | he2
    · rfl
    · exact ih.2 e he2
  | verify st p c t _ ih =>
    rcases verifyStoredOTP_snd_cases st p c t with h2 | h2 <;> rw [h2]
    · exact ih
    · exact ⟨keysNodup_mapDelete st p ih.1,
        fun e he => ih.2 e ((mapDelete_sublist st p).subset he)⟩
  | sweepStep st t _ ih =>
    exact ⟨keysNodup_sweep st t ih.1,
      fun e he => ih.2 e ((List.filter_sublist st).subset he)⟩

/-! ### Claim theorems -/

/-- C1.  `verifyStoredOTP` decides its outcome by strict priority.  The
four guards below (no record; record and expired; record, not expired,
code differs; record, not expired, code equal) are mutually exclusive and
exhaustive, so exactly one branch applies: if no record exists the answer
is invalid with `msgNoOtp` and the store is untouched; an expired record
is deleted with answer `msgExpired`; a code mismatch answers
`msgMismatch` and retains the record, so a later verify with the correct
code within TTL still succeeds; a match deletes the record and answers
valid. -/
theorem verify_priority_order (st : Store) (p c : String) (now : Nat) :
    (mapGet st p = none →
      verifyStoredOTP st p c now = (⟨false, msgNoOtp⟩, st)) ∧
    (∀ rec, mapGet st p = some rec →
      (rec.expiresAt < now →
        verifyStoredOTP st p c now = (⟨false, msgExpired⟩, mapDelete st p)) ∧
      (¬ rec.expiresAt < now → rec.otp ≠ c →
        verifyStoredOTP st p c now = (⟨false, msgMismatch⟩, st) ∧
        ∀ t2, ¬ rec.expiresAt < t2 →
          verifyStoredOTP st p rec.otp t2 =
            (⟨true, msgVerified⟩, mapDelete st p)) ∧
      (¬ rec.expiresAt < now → rec.otp = c →
        verifyStoredOTP st p c now =
          (⟨true, msgVerified⟩, mapDelete st p))) := by
  refine ⟨fun h => by simp [verifyStoredOTP, h], fun rec hg => ⟨?_, ?_, ?_⟩⟩
  · intro hexp
    simp [verifyStoredOTP, hg, hexp]
  · intro hexp hne
    refine ⟨by simp [verifyStoredOTP, hg, hexp, hne], fun t2 h2 => ?_⟩
    simp [verifyStoredOTP, hg, h2]
  · intro hexp heq
    simp [verifyStoredOTP, hg, hexp, heq]

/-- Witness for C1 at a concrete store: a mismatch answers `msgMismatch`
and retains the record, and the retry with the stored code succeeds. -/
theorem verify_priority_order_witness :
    verifyStoredOTP [("9876543210", ⟨"1234", 0, 300000⟩)] "9876543210"
        "0000" 10 =
      (⟨false, msgMismatch⟩, [("9876543210", ⟨"1234", 0, 300000⟩)]) ∧
    verifyStoredOTP [("9876543210", ⟨"1234", 0, 300000⟩)] "9876543210"
        "1234" 20 =
      (⟨true, msgVerified⟩,
        mapDelete [("9876543210", ⟨"1234", 0, 300000⟩)] "9876543210") := by
  have h := (verify_priority_order
    [("9876543210", ⟨"1234", 0, 300000⟩)] "9876543210" "0000" 10).2
    ⟨"1234", 0, 300000⟩ (by decide)
  exact ⟨(h.2.1 (by decide) (by decide)).1,
    (h.2.1 (by decide) (by decide)).2 20 (by decide)⟩

/-- C2.  Store then immediately verify with the same code: the verify is
valid and removes the record, and a second immediate verify with the same
code finds no record and answers `msgNoOtp` — one verify per record. -/
theorem store_then_verify_single_use (st : Store) (p c : String) (t : Nat)
    (hnd : keysNodup st) :
    verifyStoredOTP (storeOTP st p c t) p c t =
      (⟨true, msgVerified⟩, mapDelete (storeOTP st p c t) p) ∧
    mapGet (mapDelete (storeOTP st p c t) p) p = none ∧
    verifyStoredOTP (mapDelete (storeOTP st p c t) p) p c t =
      (⟨false, msgNoOtp⟩, mapDelete (storeOTP st p c t) p) := by
  have hget := mapGet_mapSet_self st p ⟨c, t, t + otpExpiryMs⟩
  have hlt : ¬ (t + otpExpiryMs < t) := by omega
  have h2 : mapGet (mapDelete (storeOTP st p c t) p) p = none :=
    mapGet_mapDelete_self _ p (keysNodup_mapSet st p _ hnd)
  exact ⟨by simp [verifyStoredOTP, storeOTP, hget, hlt], h2,
    by simp [verifyStoredOTP, h2]⟩

/-- Witness for C2 from the empty store. -/
theorem store_then_verify_single_use_witness :
    keysNodup ([] : Store) ∧
    (verifyStoredOTP (storeOTP [] "9876543210" "1234" 0) "9876543210"
        "1234" 0 =
      (⟨true, msgVerified⟩,
        mapDelete (storeOTP [] "9876543210" "1234" 0) "9876543210") ∧
    mapGet (mapDelete (storeOTP [] "9876543210" "1234" 0) "9876543210")
        "9876543210" = none ∧
    verifyStoredOTP (mapDelete (storeOTP [] "9876543210" "1234" 0)
        "9876543210") "9876543210" "1234" 0 =
      (⟨false, msgNoOtp⟩,
        mapDelete (storeOTP [] "9876543210" "1234" 0) "9876543210")) :=
  ⟨by decide,
    store_then_verify_single_use [] "9876543210" "1234" 0 (by decide)⟩

/-- C3, counterexample.  The code tests `Date.now() > stored.expiresAt`
strictly, so at the boundary instant `now = T + 5 minutes` exactly a
verify with the stored code is still accepted (valid, record consumed),
not answered with the claimed Expired outcome. -/
theorem expiry_boundary_counterexample :
    verifyStoredOTP (storeOTP [] "9876543210" "1234" 0) "9876543210"
        "1234" (0 + otpExpiryMs) =
      (⟨true, msgVerified⟩, []) ∧ msgVerified ≠ msgExpired :=
  ⟨by decide, by decide⟩

/-- C3, amended.  If `storeOTP(P, C)` runs at time `T`, a
`verifyStoredOTP(P, C2)` at any time strictly greater than
`T + 5 minutes` answers Expired and removes the record, so a subsequent
verify for `P` answers `msgNoOtp`; at the boundary `now = T + 5 minutes`
exactly the record is still live (see the counterexample). -/
theorem expiry_after_ttl (st : Store) (p c c2 : String) (t t2 t3 : Nat)
    (hnd : keysNodup st) (h : t + otpExpiryMs < t2) :
    verifyStoredOTP (storeOTP st p c t) p c2 t2 =
      (⟨false, msgExpired⟩, mapDelete (storeOTP st p c t) p) ∧
    verifyStoredOTP (mapDelete (storeOTP st p c t) p) p c2 t3 =
      (⟨false, msgNoOtp⟩, mapDelete (storeOTP st p c t) p) := by
  have hget := mapGet_mapSet_self st p ⟨c, t, t + otpExpiryMs⟩
  have h2 : mapGet (mapDelete (storeOTP st p c t) p) p = none :=
    mapGet_mapDelete_self _ p (keysNodup_mapSet st p _ hnd)
  exact ⟨by simp [verifyStoredOTP, storeOTP, hget, h],
    by simp [verifyStoredOTP, h2]⟩

/-- Witness for the amended C3, one millisecond past the TTL. -/
theorem expiry_after_ttl_witness :
    keysNodup ([] : Store) ∧ 0 + otpExpiryMs < 300001 ∧
    (verifyStoredOTP (storeOTP [] "9876543210" "1234" 0) "9876543210"
        "9999" 300001 =
      (⟨false, msgExpired⟩,
        mapDelete (storeOTP [] "9876543210" "1234" 0) "9876543210") ∧
    verifyStoredOTP (mapDelete (storeOTP [] "9876543210" "1234" 0)
        "9876543210") "9876543210" "9999" 300002 =
      (⟨false, msgNoOtp⟩,
        mapDelete (storeOTP [] "9876543210" "1234" 0) "9876543210")) :=
  ⟨by decide, by decide,
    expiry_after_ttl [] "9876543210" "1234" "9999" 0 300001 300002
      (by decide) (by decide)⟩

/-- C6.  Every store state reachable by the source's operations has at
most one record per phone (`keysNodup`) and every record satisfies
`expiresAt = createdAt + 5 minutes`, hence `createdAt < expiresAt`; and
`storeOTP` replaces the record for its phone entirely (last write wins:
the lookup after a store yields exactly the new record, whatever was
there before). -/
theorem store_state_invariants (st : Store) (h : Reachable st) :
    keysNodup st ∧
    (∀ e ∈ st, e.2.expiresAt = e.2.createdAt + otpExpiryMs ∧
      e.2.createdAt < e.2.expiresAt) ∧
    (∀ p c t, mapGet (storeOTP st p c t) p = some ⟨c, t, t + otpExpiryMs⟩) := by
  obtain ⟨h1, h2⟩ := reachable_inv st h
  have hms : otpExpiryMs = 300000 := rfl
  refine ⟨h1, fun e he => ⟨h2 e he, ?_⟩, fun p c t => mapGet_mapSet_self st p _⟩
  have := h2 e he
  omega

/-- Witness for C6 on a small reachable state (a store overwritten by a
second send, then a sweep). -/
theorem store_state_invariants_witness :
    keysNodup (sweep (storeOTP (storeOTP [] "9876543210" "1111" 5)
        "9876543210" "2222" 9) 10) ∧
    (∀ e ∈ (sweep (storeOTP (storeOTP [] "9876543210" "1111" 5)
        "9876543210" "2222" 9) 10),
      e.2.expiresAt = e.2.createdAt + otpExpiryMs ∧
      e.2.createdAt < e.2.expiresAt) ∧
    (∀ p c t, mapGet (storeOTP (sweep (storeOTP (storeOTP []
        "9876543210" "1111" 5) "9876543210" "2222" 9) 10) p c t) p =
      some ⟨c, t, t + otpExpiryMs⟩) :=
  store_state_invariants _
    (Reachable.sweepStep _ 10 (Reachable.store _ "9876543210" "2222" 9
      (Reachable.store _ "9876543210" "1111" 5 Reachable.empty)))

/-- C7.  The sweep deletes exactly the expired records and keeps the
unexpired ones unchanged; it is idempotent at a fixed instant; and
sweeping after lazy expiry already deleted an expired record gives the
same store as sweeping directly (deleting twice is a no-op, not an
error). -/
theorem sweep_exactness (st : Store) (now : Nat) (hnd : keysNodup st) :
    (∀ p rec, mapGet st p = some rec →
      mapGet (sweep st now) p =
        if rec.expiresAt < now then none else some rec) ∧
    (∀ p, mapGet st p = none → mapGet (sweep st now) p = none) ∧
    sweep (sweep st now) now = sweep st now ∧
    (∀ p c rec, mapGet st p = some rec → rec.expiresAt < now →
      sweep (verifyStoredOTP st p c now).2 now = sweep st now) := by
  refine ⟨fun p rec h => mapGet_sweep_some st p rec now hnd h,
    fun p h => mapGet_sweep_none st p now h,
    sweep_sweep st now, fun p c rec h hexp => ?_⟩
  have hdel : (verifyStoredOTP st p c now).2 = mapDelete st p := by
    simp [verifyStoredOTP, h, hexp]
  rw [hdel]
  exact sweep_mapDelete_of_expired st p rec now h hexp

/-- Witness for C7 on a two-record store with one expired entry. -/
theorem sweep_exactness_witness :
    keysNodup [("9876543210", (⟨"1234", 0, 300000⟩ : OtpRecord)),
      ("7021312529", ⟨"5678", 200000, 500000⟩)] ∧
    mapGet (sweep [("9876543210", (⟨"1234", 0, 300000⟩ : OtpRecord)),
      ("7021312529", ⟨"5678", 200000, 500000⟩)] 300001) "9876543210" =
      (if (300000 : Nat) < 300001 then none
        else some (⟨"1234", 0, 300000⟩ : OtpRecord)) := by
  refine ⟨by decide, ?_⟩
  have h := (sweep_exactness [("9876543210", ⟨"1234", 0, 300000⟩),
    ("7021312529", ⟨"5678", 200000, 500000⟩)] 300001 (by decide)).1
    "9876543210" ⟨"1234", 0, 300000⟩ (by decide)
  simpa using h

/-- C4.  In both locally tracked send flows, once the gate passed and the
record was optimistically stored, any failed delivery — a resolved
response that misses the success check, or a thrown request error —
removes the record for the formatted phone before the handler responds,
so a failed send leaves no verifiable record. -/
theorem send_failure_rollback (st : Store) (p c : String) (t : Nat)
    (fp : String) (hnd : keysNodup st)
    (hgate : sendOtpGate p = .proceedSend fp) :
    (∀ r : WaResp,
      (r.dataTruthy && (r.dataSuccess || (r.httpStatus == 200))) = false →
      (whatsappSendOtp st p c t (.resolved r)).1 = false ∧
      mapGet (whatsappSendOtp st p c t (.resolved r)).2 fp = none) ∧
    (∀ b : Bool, (whatsappSendOtp st p c t (.rejected b)).1 = false ∧
      mapGet (whatsappSendOtp st p c t (.rejected b)).2 fp = none) ∧
    (∀ r : MetaResp, (r.dataTruthy && r.firstMessageAccepted) = false →
      (r.httpStatus == 200) = false →
      (metaSendOtp st p c t (.resolved r)).1 = false ∧
      mapGet (metaSendOtp st p c t (.resolved r)).2 fp = none) ∧
    (∀ b : Bool, (metaSendOtp st p c t (.rejected b)).1 = false ∧
      mapGet (metaSendOtp st p c t (.rejected b)).2 fp = none) := by
  have hdel : mapGet (mapDelete (storeOTP st fp c t) fp) fp = none :=
    mapGet_mapDelete_self _ fp (keysNodup_mapSet st fp _ hnd)
  refine ⟨fun r hr => ?_, fun b => ?_, fun r hr1 hr2 => ?_, fun b => ?_⟩
  · constructor <;> simp [whatsappSendOtp, hgate, hr, hdel]
  · constructor <;> simp [whatsappSendOtp, hgate, hdel]
  · constructor <;> simp [metaSendOtp, hgate, hr1, hr2, hdel]
  · constructor <;> simp [metaSendOtp, hgate, hdel]

/-- Witness for C4: a thrown delivery error and a non-success response
both leave no record for the phone. -/
theorem send_failure_rollback_witness :
    keysNodup ([] : Store) ∧
    sendOtpGate "9876543210" = .proceedSend "9876543210" ∧
    ((whatsappSendOtp [] "9876543210" "1234" 0
        (.rejected true)).1 = false ∧
      mapGet (whatsappSendOtp [] "9876543210" "1234" 0
        (.rejected true)).2 "9876543210" = none) ∧
    ((whatsappSendOtp [] "9876543210" "1234" 0
        (.resolved ⟨true, false, 500⟩)).1 = false ∧
      mapGet (whatsappSendOtp [] "9876543210" "1234" 0
        (.resolved ⟨true, false, 500⟩)).2 "9876543210" = none) := by
  have h := send_failure_rollback [] "9876543210" "1234" 0 "9876543210"
    (by decide) (by decide)
  exact ⟨by decide, by decide, h.2.1 true, h.1 ⟨true, false, 500⟩ (by decide)⟩

/-- C5, counterexample.  A resolved (non-error) provider response whose
`Details` is exactly "OTP Expired" falls into the generic
else-branch of the delegated verify handler and is reported with the
generic mismatch message, not the ExpiredError message — so the mapping
does not cover non-matching success responses. -/
theorem sms_expired_detail_counterexample :
    smsVerifyCore (.okResponse "Error" "OTP Expired") =
      ⟨400, false, false, msgMismatch⟩ ∧ msgMismatch ≠ msgExpired :=
  ⟨by decide, by decide⟩

/-- C5, amended.  Only on the error-response path (`error.response`) is a
`Details` string containing "OTP Expired" — and not containing the
higher-priority "OTP Mismatch" or "OTP not matched" — mapped to the
ExpiredError message; a resolved response carrying that detail gets the
generic failure message (see the counterexample). -/
theorem sms_expired_detail_mapping (hs : Nat) (d : String)
    (h1 : strIncludes d "OTP Mismatch" = false)
    (h2 : strIncludes d "OTP not matched" = false)
    (h3 : strIncludes d "OTP Expired" = true) :
    smsVerifyCore (.errResponse hs d) = ⟨400, false, false, msgExpired⟩ := by
  simp [smsVerifyCore, h1, h2, h3]

/-- Witness for the amended C5 at the literal provider detail. -/
theorem sms_expired_detail_mapping_witness :
    strIncludes "OTP Expired" "OTP Mismatch" = false ∧
    strIncludes "OTP Expired" "OTP not matched" = false ∧
    strIncludes "OTP Expired" "OTP Expired" = true ∧
    smsVerifyCore (.errResponse 400 "OTP Expired") =
      ⟨400, false, false, msgExpired⟩ :=
  ⟨by decide, by decide, by decide,
    sms_expired_detail_mapping 400 "OTP Expired" (by decide) (by decide)
      (by decide)⟩

theorem verifyGateWith_proceed_eq (otpOk : String → Bool)
    (p o fp : String) (h : verifyGateWith otpOk p o = .proceed fp) :
    fp = formatPhoneNumber p := by
  unfold verifyGateWith at h
  split_ifs at h <;> simp_all

/-- C9.  The two verification authorities share no state.  For every two
local stores — in particular one that holds a record for the verified
phone and one that does not — the delegated (SMS) verify handler returns
the same result and leaves the store unchanged, so its outcome never
reads (or writes) `otpStorage` and a locally stored code cannot satisfy
the delegated check.  Conversely, the locally tracked WhatsApp and Meta
verify handlers take no provider reply at all and decide their result
solely from the local record of the formatted phone: stores agreeing
there give the same result. -/
theorem dual_flow_isolation (st st2 : Store) (p o : String)
    (reply : ProviderReply) (now : Nat) :
    (smsVerifyHandler st p o reply).1 = (smsVerifyHandler st2 p o reply).1 ∧
    (smsVerifyHandler st p o reply).2 = st ∧
    (mapGet st (formatPhoneNumber p) = mapGet st2 (formatPhoneNumber p) →
      (whatsappVerifyHandler st p o now).1 =
        (whatsappVerifyHandler st2 p o now).1 ∧
      (metaVerifyHandler st p o now).1 =
        (metaVerifyHandler st2 p o now).1) := by
  refine ⟨?_, ?_, fun h => ⟨?_, ?_⟩⟩
  · cases hg : smsVerifyGate p o <;> simp [smsVerifyHandler, hg]
  · cases hg : smsVerifyGate p o <;> simp [smsVerifyHandler, hg]
  · cases hg : whatsappVerifyGate p o with
    | missing => simp [whatsappVerifyHandler, hg]
    | badOtpFormat => simp [whatsappVerifyHandler, hg]
    | proceed fp =>
      obtain rfl : fp = formatPhoneNumber p :=
        verifyGateWith_proceed_eq otpFormat46 p o fp hg
      have hc := verifyStoredOTP_fst_congr st st2 (formatPhoneNumber p) o now h
      simp only [whatsappVerifyHandler, hg, hc]
      split_ifs <;> rfl
  · cases hg : metaVerifyGate p o with
    | missing => simp [metaVerifyHandler, hg]
    | badOtpFormat => simp [metaVerifyHandler, hg]
    | proceed fp =>
      obtain rfl : fp = formatPhoneNumber p :=
        verifyGateWith_proceed_eq otpFormat4 p o fp hg
      have hc := verifyStoredOTP_fst_congr st st2 (formatPhoneNumber p) o now h
      simp only [metaVerifyHandler, hg, hc]
      split_ifs <;> rfl

/-- Witness for C9.  The stores differ exactly in a record for the
verified phone "7021312529" holding the very code "1234" being checked:
the delegated handler still answers the same (the provider denied, and
the locally stored matching code does not sway it) and leaves the store
alone; and two stores agreeing on that phone's record (but differing
elsewhere) give the same local-flow results. -/
theorem dual_flow_isolation_witness :
    ((smsVerifyHandler [("7021312529", (⟨"1234", 0, 300000⟩ : OtpRecord))]
        "7021312529" "1234" (.okResponse "Error" "OTP not matched")).1 =
      (smsVerifyHandler [] "7021312529" "1234"
        (.okResponse "Error" "OTP not matched")).1) ∧
    ((smsVerifyHandler [("7021312529", (⟨"1234", 0, 300000⟩ : OtpRecord))]
        "7021312529" "1234" (.okResponse "Error" "OTP not matched")).2 =
      [("7021312529", ⟨"1234", 0, 300000⟩)]) ∧
    (mapGet [("7021312529", (⟨"1234", 0, 300000⟩ : OtpRecord))]
        (formatPhoneNumber "7021312529") =
      mapGet [("7021312529", ⟨"1234", 0, 300000⟩),
        ("9876543210", ⟨"5678", 0, 300000⟩)]
        (formatPhoneNumber "7021312529")) ∧
    ((whatsappVerifyHandler
        [("7021312529", (⟨"1234", 0, 300000⟩ : OtpRecord))]
        "7021312529" "1234" 0).1 =
      (whatsappVerifyHandler [("7021312529", ⟨"1234", 0, 300000⟩),
        ("9876543210", ⟨"5678", 0, 300000⟩)] "7021312529" "1234" 0).1) ∧
    ((metaVerifyHandler [("7021312529", (⟨"1234", 0, 300000⟩ : OtpRecord))]
        "7021312529" "1234" 0).1 =
      (metaVerifyHandler [("7021312529", ⟨"1234", 0, 300000⟩),
        ("9876543210", ⟨"5678", 0, 300000⟩)] "7021312529" "1234" 0).1) := by
  have h1 := dual_flow_isolation
    [("7021312529", ⟨"1234", 0, 300000⟩)] [] "7021312529" "1234"
    (.okResponse "Error" "OTP not matched") 0
  have h2 := dual_flow_isolation
    [("7021312529", ⟨"1234", 0, 300000⟩)]
    [("7021312529", ⟨"1234", 0, 300000⟩),
      ("9876543210", ⟨"5678", 0, 300000⟩)] "7021312529" "1234"
    (.okResponse "Error" "OTP not matched") 0
  exact ⟨h1.1, h1.2.1, by decide, (h2.2.2 (by decide)).1,
    (h2.2.2 (by decide)).2⟩

/-- C10.  No verify handler validates the phone number: for any nonempty
phone string — in particular one `validatePhoneNumber` rejects — and any
well-formed OTP, all three verify gates proceed to the lookup or provider
call with the formatted phone, while the send gate rejects that same
phone as invalid. -/
theorem verify_skips_phone_validation (p o : String)
    (hp : p ≠ "") (ho : o ≠ "") (h4 : otpFormat4 o = true) :
    smsVerifyGate p o = .proceed (formatPhoneNumber p) ∧
    whatsappVerifyGate p o = .proceed (formatPhoneNumber p) ∧
    metaVerifyGate p o = .proceed (formatPhoneNumber p) ∧
    (validatePhoneNumber (formatPhoneNumber p) = false →
      sendOtpGate p = .invalidPhone) := by
  obtain ⟨hl, hd⟩ : o.length = 4 ∧ o.toList.all Char.isDigit = true := by
    simpa [otpFormat4, Bool.and_eq_true] using h4
  have h46 : otpFormat46 o = true := by
    simp only [otpFormat46, Bool.and_eq_true, decide_eq_true_eq]
    exact ⟨⟨by omega, by omega⟩, hd⟩
  refine ⟨?_, ?_, ?_, fun hv => ?_⟩
  · simp [smsVerifyGate, verifyGateWith, hp, ho, h46]
  · simp [whatsappVerifyGate, verifyGateWith, hp, ho, h46]
  · simp [metaVerifyGate, verifyGateWith, hp, ho, h4]
  · simp [sendOtpGate, hp, hv]

/-- Witness for C10 at a phone the validator rejects. -/
theorem verify_skips_phone_validation_witness :
    ("12345" : String) ≠ "" ∧ ("9999" : String) ≠ "" ∧
    otpFormat4 "9999" = true ∧
    validatePhoneNumber (formatPhoneNumber "12345") = false ∧
    (smsVerifyGate "12345" "9999" = .proceed (formatPhoneNumber "12345") ∧
    whatsappVerifyGate "12345" "9999" =
      .proceed (formatPhoneNumber "12345") ∧
    metaVerifyGate "12345" "9999" = .proceed (formatPhoneNumber "12345") ∧
    (validatePhoneNumber (formatPhoneNumber "12345") = false →
      sendOtpGate "12345" = .invalidPhone)) :=
  ⟨by decide, by decide, by decide, by decide,
    verify_skips_phone_validation "12345" "9999" (by decide) (by decide)
      (by decide)⟩

/-! ### Decimal rendering of a four-digit number (for `generateOTP`) -/

theorem toDigitsCore_step (f n : Nat) (acc : List Char) (hf : 0 < f)
    (h : n / 10 ≠ 0) :
    Nat.toDigitsCore 10 f n acc =
      Nat.toDigitsCore 10 (f - 1) (n / 10)
        (Nat.digitChar (n % 10) :: acc) := by
  cases f with
  | zero => exact absurd hf (by simp)
  | succ f => simp [Nat.toDigitsCore, h]

theorem toDigitsCore_last (f n : Nat) (acc : List Char) (hf : 0 < f)
    (h : n / 10 = 0) :
    Nat.toDigitsCore 10 f n acc = Nat.digitChar (n % 10) :: acc := by
  cases f with
  | zero => exact absurd hf (by simp)
  | succ f => simp [Nat.toDigitsCore, h]

theorem toDigits_four (n : Nat) (h1 : 1000 ≤ n) (h2 : n ≤ 9999) :
    Nat.toDigits 10 n =
      [Nat.digitChar (n / 1000), Nat.digitChar (n / 100 % 10),
        Nat.digitChar (n / 10 % 10), Nat.digitChar (n % 10)] := by
  have e1 : n / 10 / 10 = n / 100 := by omega
  have e2 : n / 100 / 10 = n / 1000 := by omega
  have e3 : n / 1000 % 10 = n / 1000 := by omega
  have e4 : n - 1 - 1 = n - 2 := by omega
  calc Nat.toDigits 10 n = Nat.toDigitsCore 10 (n + 1) n [] := rfl
    _ = Nat.toDigitsCore 10 n (n / 10) [Nat.digitChar (n % 10)] := by
        have h := toDigitsCore_step (n + 1) n [] (by omega) (by omega)
        simpa using h
    _ = Nat.toDigitsCore 10 (n - 1) (n / 100)
          [Nat.digitChar (n / 10 % 10), Nat.digitChar (n % 10)] := by
        have h := toDigitsCore_step n (n / 10)
          [Nat.digitChar (n % 10)] (by omega) (by omega)
        rw [h, e1]
    _ = Nat.toDigitsCore 10 (n - 2) (n / 1000)
          [Nat.digitChar (n / 100 % 10), Nat.digitChar (n / 10 % 10),
            Nat.digitChar (n % 10)] := by
        have h := toDigitsCore_step (n - 1) (n / 100)
          [Nat.digitChar (n / 100 % 10), Nat.digitChar (n / 10 % 10),
            Nat.digitChar (n % 10)].tail (by omega) (by omega)
        rw [List.tail_cons] at h
        rw [h, e2, e4]
    _ = [Nat.digitChar (n / 1000), Nat.digitChar (n / 100 % 10),
          Nat.digitChar (n / 10 % 10), Nat.digitChar (n % 10)] := by
        have h := toDigitsCore_last (n - 2) (n / 1000)
          [Nat.digitChar (n / 100 % 10), Nat.digitChar (n / 10 % 10),
            Nat.digitChar (n % 10)] (by omega) (by omega)
        rw [h, e3]

theorem digitChar_isDigit (m : Nat) (h : m < 10) :
    (Nat.digitChar m).isDigit = true := by
  interval_cases m <;> decide

theorem digitChar_toNat (m : Nat) (h : m < 10) :
    (Nat.digitChar m).toNat = m + 48 := by
  interval_cases m <;> decide

theorem repr_four (n : Nat) (h1 : 1000 ≤ n) (h2 : n ≤ 9999) :
    Nat.repr n =
      ⟨[Nat.digitChar (n / 1000), Nat.digitChar (n / 100 % 10),
        Nat.digitChar (n / 10 % 10), Nat.digitChar (n % 10)]⟩ := by
  show (Nat.toDigits 10 n).asString = _
  rw [toDigits_four n h1 h2]
  rfl

theorem repr_four_toNat (n : Nat) (h1 : 1000 ≤ n) (h2 : n ≤ 9999) :
    (Nat.repr n).toNat? = some n := by
  have ha : n / 1000 < 10 := by omega
  have hb : n / 100 % 10 < 10 := by omega
  have hc : n / 10 % 10 < 10 := by omega
  have hd : n % 10 < 10 := by omega
  rw [repr_four n h1 h2]
  have hempty : (⟨[Nat.digitChar (n / 1000), Nat.digitChar (n / 100 % 10),
      Nat.digitChar (n / 10 % 10), Nat.digitChar (n % 10)]⟩ : String).isEmpty
      = false := by
    rw [Bool.eq_false_iff]
    intro hcontra
    have h := (String.isEmpty_iff _).mp hcontra
    simpa [String.ext_iff] using h
  have hnat : (⟨[Nat.digitChar (n / 1000), Nat.digitChar (n / 100 % 10),
      Nat.digitChar (n / 10 % 10), Nat.digitChar (n % 10)]⟩ : String).isNat
      = true := by
    simp only [String.isNat, hempty, Bool.not_false, Bool.true_and]
    rw [String.all_eq]
    simp [digitChar_isDigit _ ha, digitChar_isDigit _ hb,
      digitChar_isDigit _ hc, digitChar_isDigit _ hd]
  rw [String.toNat?, if_pos hnat, String.foldl_eq]
  simp only [List.foldl]
  rw [digitChar_toNat _ ha, digitChar_toNat _ hb, digitChar_toNat _ hc,
    digitChar_toNat _ hd]
  have h48 : ('0' : Char).toNat = 48 := rfl
  rw [h48]
  congr 1
  omega

/-- C8.  For every value of the random source (`0 ≤ r < 1`), the number
`Math.floor(1000 + r * 9000)` lies in `1000 .. 9999`, and its rendered
string — the value `generateOTP` returns — has exactly 4 characters, all
decimal digits, and reads back as that number, so a leading zero is
impossible by construction. -/
theorem generateOTP_spec (r : ℚ) (h0 : 0 ≤ r) (h1 : r < 1) :
    1000 ≤ genOTPNat r ∧ genOTPNat r ≤ 9999 ∧
    (generateOTP r).length = 4 ∧
    (∀ c ∈ (generateOTP r).data, c.isDigit = true) ∧
    (generateOTP r).toNat? = some (genOTPNat r) := by
  have hb : 1000 ≤ genOTPNat r ∧ genOTPNat r ≤ 9999 := by
    unfold genOTPNat
    have hfl : (1000 : ℤ) ≤ ⌊(1000 : ℚ) + r * 9000⌋ := by
      apply Int.le_floor.mpr
      push_cast
      nlinarith
    have hfu : ⌊(1000 : ℚ) + r * 9000⌋ < 10000 := by
      apply Int.floor_lt.mpr
      push_cast
      nlinarith
    omega
  refine ⟨hb.1, hb.2, ?_, ?_, ?_⟩
  · rw [generateOTP, repr_four _ hb.1 hb.2]
    rfl
  · rw [generateOTP, repr_four _ hb.1 hb.2]
    intro c hcm
    simp only [List.mem_cons, List.not_mem_nil, or_false] at hcm
    rcases hcm with rfl | rfl | rfl | rfl
    · exact digitChar_isDigit _ (by omega)
    · exact digitChar_isDigit _ (by omega)
    · exact digitChar_isDigit _ (by omega)
    · exact digitChar_isDigit _ (by omega)
  · rw [generateOTP]
    exact repr_four_toNat _ hb.1 hb.2

/-- Witness for C8 at `r = 1/2` (`generateOTP` gives "5500"). -/
theorem generateOTP_spec_witness :
    (0 : ℚ) ≤ 1 / 2 ∧ (1 / 2 : ℚ) < 1 ∧
    (1000 ≤ genOTPNat (1 / 2) ∧ genOTPNat (1 / 2) ≤ 9999 ∧
    (generateOTP (1 / 2)).length = 4 ∧
    (∀ c ∈ (generateOTP (1 / 2)).data, c.isDigit = true) ∧
    (generateOTP (1 / 2)).toNat? = some (genOTPNat (1 / 2))) :=
  ⟨by norm_num, by norm_num,
    generateOTP_spec (1 / 2) (by norm_num) (by norm_num)⟩

end Otp
